import Mathlib

/-!
Verification of the FSRS scheduler core in `BE/fsrs/optimizer.py`
(classes `State`, `Rating`, `Card`, `ReviewLog`, `Scheduler`).

Modelling conventions of this shallow embedding:
* Python floats are idealised as real numbers (`ℝ`); `math.e ** x` is
  `Real.exp x` and `x ** y` with a real exponent is `Real.rpow`.
* `datetime` values are modelled by their POSIX timestamp in seconds (`ℚ`)
  together with their `tzinfo`; `timedelta` values are rational seconds.
  `isoformat`/`fromisoformat` round-trip aware datetimes exactly, so the
  serialized form of a datetime is modelled by the datetime itself.
* Fallible Python code is modelled with `Except PyError`; `PyError`
  distinguishes the exception classes that the modelled paths can raise.
* Python's builtin `round` (banker's rounding, round-half-to-even) is
  modelled by `pyRound`; Python list indexing (including negative indices
  and `IndexError`) by `pyIndex`.
* `random.random()` draws are passed in explicitly as a rational `u`,
  and `datetime.now(timezone.utc)` is passed in explicitly as `now`.
-/

/-- Exception kinds raised by the modelled code paths. -/
inductive PyError where
  | valueError
  | typeError
  | attributeError
  | indexError
  deriving DecidableEq, Repr

/-- A `tzinfo` value: either `timezone.utc` or some other timezone object. -/
inductive TZ where
  | utc
  | other
  deriving DecidableEq, Repr

/-- A Python `datetime`: POSIX seconds plus optional timezone info
(`tz = none` models a naive datetime). -/
structure PyDateTime where
  seconds : ℚ
  tz : Option TZ
  deriving DecidableEq, Repr

/-- `datetime + timedelta` (seconds); the timezone is preserved. -/
def PyDateTime.addSeconds (t : PyDateTime) (s : ℚ) : PyDateTime :=
  { seconds := t.seconds + s, tz := t.tz }

/-- `(t2 - t1).days`: Python `timedelta` normalises with `days` equal to the
floor of the total duration in days. -/
def PyDateTime.daysUntil (t1 t2 : PyDateTime) : ℤ :=
  Int.floor ((t2.seconds - t1.seconds) / 86400)

/-- `class State(IntEnum)`: Learning = 1, Review = 2, Relearning = 3. -/
inductive State where
  | Learning
  | Review
  | Relearning
  deriving DecidableEq, Repr

/-- The integer value of a `State` member. -/
def State.val : State → ℤ
  | .Learning => 1
  | .Review => 2
  | .Relearning => 3

/-- `class Rating(IntEnum)`: Again = 1, Hard = 2, Good = 3, Easy = 4. -/
inductive Rating where
  | Again
  | Hard
  | Good
  | Easy
  deriving DecidableEq, Repr

/-- The integer value of a `Rating` member. -/
def Rating.val : Rating → ℤ
  | .Again => 1
  | .Hard => 2
  | .Good => 3
  | .Easy => 4

/-- The rating value as a real number (Python arithmetic such as
`rating - 1` treats the IntEnum as its integer value). -/
noncomputable def Rating.toR (r : Rating) : ℝ := (r.val : ℝ)

/-- `parameters[rating - 1]` as an index into the 21 parameters. -/
def Rating.paramIndex : Rating → Fin 21
  | .Again => 0
  | .Hard => 1
  | .Good => 2
  | .Easy => 3

/-- `class Card`: the per-item memory record.  Field names follow the
source; `card_id`/`due` auto-generation from the current clock is an IO
side effect and is modelled by `Card.init` taking those values. -/
structure Card where
  card_id : ℤ
  state : State
  step : Option ℤ
  stability : Option ℝ
  difficulty : Option ℝ
  due : PyDateTime
  last_review : Option PyDateTime

/-- `Card.__init__` after the `card_id`/`due` defaults are resolved:
a missing step is normalised to 0 exactly when `state == State.Learning`. -/
def Card.init (card_id : ℤ) (state : State) (step : Option ℤ)
    (stability difficulty : Option ℝ) (due : PyDateTime)
    (last_review : Option PyDateTime) : Card :=
  { card_id := card_id
    state := state
    step := if state = State.Learning ∧ step = none then some 0 else step
    stability := stability
    difficulty := difficulty
    due := due
    last_review := last_review }

/-- `class ReviewLog`. -/
structure ReviewLog where
  card_id : ℤ
  rating : Rating
  review_datetime : PyDateTime
  review_duration : Option ℤ

/-- Python's builtin `round`: round half to even (banker's rounding). -/
def pyRound {α : Type} [LinearOrderedField α] [FloorRing α] (x : α) : ℤ :=
  if x - (Int.floor x : α) < 1/2 then Int.floor x
  else if (1/2 : α) < x - (Int.floor x : α) then Int.floor x + 1
  else if Even (Int.floor x) then Int.floor x else Int.floor x + 1

/-- Python list indexing `l[i]`: negative indices count from the end and
out-of-range access raises `IndexError`. -/
def pyIndex {β : Type} (l : List β) (i : ℤ) : Except PyError β :=
  if 0 ≤ i then
    match l.get? i.toNat with
    | some x => .ok x
    | none => .error .indexError
  else
    match l.get? (l.length - (-i).toNat) with
    | some x => if (-i).toNat ≤ l.length then .ok x else .error .indexError
    | none => .error .indexError

/-- `STABILITY_MIN = 0.001`. -/
noncomputable def STABILITY_MIN : ℝ := 1/1000

/-- `DEFAULT_PARAMETERS` (21 weights). -/
noncomputable def defaultParametersList : List ℝ :=
  [0.2172, 1.1771, 3.2602, 16.1507, 7.0114, 0.57, 2.0966, 0.0069, 1.5261,
   0.112, 1.0178, 1.849, 0.1133, 0.3127, 2.2934, 0.2191, 3.0004, 0.7536,
   0.3332, 0.1437, 0.2]

/-- The default parameter tuple as a function on indices. -/
noncomputable def defaultParameters : Fin 21 → ℝ :=
  fun i => defaultParametersList.getD i.val 0

/-- `class Scheduler`: immutable configuration.  `parameters` is the
21-tuple of weights; steps are stored as seconds (`timedelta`). -/
structure Scheduler where
  parameters : Fin 21 → ℝ
  desired_retention : ℝ
  learning_steps : List ℚ
  relearning_steps : List ℚ
  maximum_interval : ℤ
  enable_fuzzing : Bool

/-- `self._DECAY = -self.parameters[20]`. -/
noncomputable def Scheduler.DECAY (s : Scheduler) : ℝ := -(s.parameters 20)

/-- `self._FACTOR = 0.9 ** (1 / self._DECAY) - 1`. -/
noncomputable def Scheduler.FACTOR (s : Scheduler) : ℝ :=
  (0.9 : ℝ) ^ ((1 : ℝ) / s.DECAY) - 1

/-- `Scheduler()` with all defaults (`desired_retention=0.9`,
`learning_steps=(1 min, 10 min)`, `relearning_steps=(10 min,)`,
`maximum_interval=36500`, `enable_fuzzing=True`). -/
noncomputable def defaultScheduler : Scheduler :=
  { parameters := defaultParameters
    desired_retention := 0.9
    learning_steps := [60, 600]
    relearning_steps := [600]
    maximum_interval := 36500
    enable_fuzzing := true }

/-- `FUZZ_RANGES` folded into the delta computation of `_get_fuzz_range`:
`delta = 1 + Σ factor * max(min(interval_days, end) - start, 0)`; the last
band has `end = math.inf`, so `min(interval_days, inf) = interval_days`. -/
def fuzzDelta (days : ℤ) : ℚ :=
  1 + 3/20 * max (min (days : ℚ) 7 - 5/2) 0
    + 1/10 * max (min (days : ℚ) 20 - 7) 0
    + 1/20 * max ((days : ℚ) - 20) 0

/-- `_get_fuzz_range`: the clamped `(min_ivl, max_ivl)` pair. -/
def getFuzzRange (maximum_interval : ℤ) (days : ℤ) : ℤ × ℤ :=
  let delta := fuzzDelta days
  let minIvl := pyRound ((days : ℚ) - delta)
  let maxIvl := pyRound ((days : ℚ) + delta)
  let minIvl := max 2 minIvl
  let maxIvl := min maxIvl maximum_interval
  let minIvl := min minIvl maxIvl
  (minIvl, maxIvl)

/-- The fuzzed number of days:
`min(round(random() * (max_ivl - min_ivl + 1) + min_ivl), maximum_interval)`
with the random draw `u` passed in explicitly. -/
def fuzzedDays (maximum_interval : ℤ) (days : ℤ) (u : ℚ) : ℤ :=
  let r := getFuzzRange maximum_interval days
  min (pyRound (u * ((r.2 : ℚ) - (r.1 : ℚ) + 1) + (r.1 : ℚ))) maximum_interval

/-- `Scheduler._get_fuzzed_interval` on a `timedelta` of `interval`
seconds: intervals of fewer than 2.5 days are returned unchanged,
otherwise the result is a whole number of fuzzed days. -/
def Scheduler.get_fuzzed_interval (s : Scheduler) (interval : ℚ) (u : ℚ) :
    ℚ :=
  let days : ℤ := Int.floor (interval / 86400)
  if (days : ℚ) < 5/2 then interval
  else 86400 * (fuzzedDays s.maximum_interval days u : ℚ)

/-- `Scheduler._clamp_difficulty`: `min(max(difficulty, 1.0), 10.0)`. -/
noncomputable def Scheduler.clamp_difficulty (_s : Scheduler) (difficulty : ℝ) : ℝ :=
  min (max difficulty 1) 10

/-- `Scheduler._clamp_stability`: `max(stability, STABILITY_MIN)`. -/
noncomputable def Scheduler.clamp_stability (_s : Scheduler) (stability : ℝ) : ℝ :=
  max stability STABILITY_MIN

/-- `Scheduler._initial_stability`:
`clamp(parameters[rating - 1])`. -/
noncomputable def Scheduler.initial_stability (s : Scheduler) (rating : Rating) : ℝ :=
  s.clamp_stability (s.parameters rating.paramIndex)

/-- `Scheduler._initial_difficulty`:
`clamp(parameters[4] - e ** (parameters[5] * (rating - 1)) + 1)`. -/
noncomputable def Scheduler.initial_difficulty (s : Scheduler) (rating : Rating) : ℝ :=
  s.clamp_difficulty
    (s.parameters 4 - Real.exp (s.parameters 5 * (rating.toR - 1)) + 1)

/-- `Scheduler._next_interval`:
`round((stability / FACTOR) * (desired_retention ** (1 / DECAY) - 1))`,
then at least 1 day and at most `maximum_interval`. -/
noncomputable def Scheduler.next_interval (s : Scheduler) (stability : ℝ) : ℤ :=
  min (max (pyRound ((stability / s.FACTOR) *
    (s.desired_retention ^ ((1 : ℝ) / s.DECAY) - 1))) 1) s.maximum_interval

/-- `Scheduler._short_term_stability`: the increase
`e ** (p17 * (rating - 3 + p18)) * stability ** (-p19)` is floored at 1
for `Good`/`Easy`; the product with `stability` is clamped. -/
noncomputable def Scheduler.short_term_stability (s : Scheduler) (stability : ℝ)
    (rating : Rating) : ℝ :=
  let increase := Real.exp (s.parameters 17 * (rating.toR - 3 + s.parameters 18)) *
    stability ^ (-(s.parameters 19))
  let increase := if rating = Rating.Good ∨ rating = Rating.Easy
    then max increase 1 else increase
  s.clamp_stability (stability * increase)

/-- `Scheduler._next_difficulty`: linear damping toward 10 plus mean
reversion toward `initial_difficulty(Easy)`, clamped to `[1, 10]`. -/
noncomputable def Scheduler.next_difficulty (s : Scheduler) (difficulty : ℝ)
    (rating : Rating) : ℝ :=
  let arg1 := s.initial_difficulty Rating.Easy
  let deltaDifficulty := -(s.parameters 6 * (rating.toR - 3))
  let arg2 := difficulty + (10 - difficulty) * deltaDifficulty / 9
  s.clamp_difficulty (s.parameters 7 * arg1 + (1 - s.parameters 7) * arg2)

/-- `Scheduler._next_forget_stability`. -/
noncomputable def Scheduler.next_forget_stability (s : Scheduler) (difficulty : ℝ)
    (stability : ℝ) (retrievability : ℝ) : ℝ :=
  min
    (s.parameters 11 * difficulty ^ (-(s.parameters 12)) *
      ((stability + 1) ^ (s.parameters 13) - 1) *
      Real.exp ((1 - retrievability) * s.parameters 14))
    (stability / Real.exp (s.parameters 17 * s.parameters 18))

/-- `Scheduler._next_recall_stability`. -/
noncomputable def Scheduler.next_recall_stability (s : Scheduler) (difficulty : ℝ)
    (stability : ℝ) (retrievability : ℝ) (rating : Rating) : ℝ :=
  let hardPenalty := if rating = Rating.Hard then s.parameters 15 else 1
  let easyBonus := if rating = Rating.Easy then s.parameters 16 else 1
  stability * (1 + Real.exp (s.parameters 8) * (11 - difficulty) *
    stability ^ (-(s.parameters 9)) *
    (Real.exp ((1 - retrievability) * s.parameters 10) - 1) *
    hardPenalty * easyBonus)

/-- `Scheduler._next_stability`: forget formula for `Again`, recall
formula otherwise, clamped. -/
noncomputable def Scheduler.next_stability (s : Scheduler) (difficulty : ℝ)
    (stability : ℝ) (retrievability : ℝ) (rating : Rating) : ℝ :=
  s.clamp_stability
    (if rating = Rating.Again then
      s.next_forget_stability difficulty stability retrievability
    else
      s.next_recall_stability difficulty stability retrievability rating)

/-- `Scheduler.get_card_retrievability`: `0` if the card was never
reviewed; otherwise `(1 + FACTOR * elapsed_days / stability) ** DECAY`
with `elapsed_days = max(0, (current - last_review).days)`.  When
`stability` is `None`, the division raises `TypeError`.  `now` models
`datetime.now(timezone.utc)`, used when no current datetime is given. -/
noncomputable def Scheduler.get_card_retrievability (s : Scheduler) (card : Card)
    (current_datetime : Option PyDateTime) (now : PyDateTime) :
    Except PyError ℝ :=
  match card.last_review with
  | none => .ok 0
  | some lastReview =>
    let t := current_datetime.getD now
    let elapsedDays : ℤ := max 0 (lastReview.daysUntil t)
    match card.stability with
    | none => .error .typeError
    | some stability =>
      .ok ((1 + s.FACTOR * (elapsedDays : ℝ) / stability) ^ s.DECAY)

/-- The stability/difficulty update of `Scheduler.review_card` (the first
half of each `match card.state` arm).  Returns the new
`(stability, difficulty)` pair.  Arithmetic on a `None`
stability/difficulty raises `TypeError`.  In the Relearning arm the
source calls `card.get_retrievability(...)`, a method that does not exist
on `Card`, so that path raises `AttributeError`. -/
noncomputable def Scheduler.updatePhase (s : Scheduler) (card : Card)
    (daysSinceLastReview : Option ℤ) (review_datetime : PyDateTime)
    (now : PyDateTime) (rating : Rating) : Except PyError (ℝ × ℝ) :=
  let shortTerm : Except PyError (ℝ × ℝ) :=
    match card.stability, card.difficulty with
    | some stability, some difficulty =>
      .ok (s.short_term_stability stability rating,
           s.next_difficulty difficulty rating)
    | _, _ => .error .typeError
  let longTerm : Except PyError (ℝ × ℝ) :=
    match s.get_card_retrievability card (some review_datetime) now with
    | .error e => .error e
    | .ok retrievability =>
      match card.stability, card.difficulty with
      | some stability, some difficulty =>
        .ok (s.next_stability difficulty stability retrievability rating,
             s.next_difficulty difficulty rating)
      | _, _ => .error .typeError
  match card.state with
  | State.Learning =>
    match card.stability, card.difficulty with
    | none, none =>
      .ok (s.initial_stability rating, s.initial_difficulty rating)
    | _, _ =>
      match daysSinceLastReview with
      | some days => if days < 1 then shortTerm else longTerm
      | none => longTerm
  | State.Review =>
    match daysSinceLastReview with
    | some days => if days < 1 then shortTerm else longTerm
    | none => longTerm
  | State.Relearning =>
    match daysSinceLastReview with
    | some days =>
      if days < 1 then shortTerm
      else .error .attributeError
    | none => .error .attributeError

/-- The interval/graduation logic shared by the Learning and Relearning
arms of `Scheduler.review_card` (the code is duplicated in the source
with `steps = learning_steps` resp. `relearning_steps` and
`st = Learning` resp. `Relearning`).  Returns the new
`(state, step, interval-in-seconds)`.  Comparing a `None` step against
`len(steps)` raises `TypeError`. -/
noncomputable def Scheduler.stepsInterval (s : Scheduler) (steps : List ℚ)
    (st : State) (step : Option ℤ) (rating : Rating) (newStability : ℝ) :
    Except PyError (State × Option ℤ × ℚ) :=
  let graduate : Except PyError (State × Option ℤ × ℚ) :=
    .ok (State.Review, none, 86400 * ((s.next_interval newStability : ℤ) : ℚ))
  if steps.length = 0 then graduate
  else
    match step with
    | none => .error .typeError
    | some step =>
      if (steps.length : ℤ) ≤ step ∧
          (rating = Rating.Hard ∨ rating = Rating.Good ∨ rating = Rating.Easy)
      then graduate
      else
        match rating with
        | Rating.Again =>
          match pyIndex steps 0 with
          | .error e => .error e
          | .ok interval => .ok (st, some 0, interval)
        | Rating.Hard =>
          if step = 0 ∧ steps.length = 1 then
            match pyIndex steps 0 with
            | .error e => .error e
            | .ok interval => .ok (st, some step, interval * (3/2))
          else if step = 0 ∧ 2 ≤ steps.length then
            match pyIndex steps 0, pyIndex steps 1 with
            | .ok i0, .ok i1 => .ok (st, some step, (i0 + i1) / 2)
            | .error e, _ => .error e
            | _, .error e => .error e
          else
            match pyIndex steps step with
            | .error e => .error e
            | .ok interval => .ok (st, some step, interval)
        | Rating.Good =>
          if step + 1 = (steps.length : ℤ) then graduate
          else
            match pyIndex steps (step + 1) with
            | .error e => .error e
            | .ok interval => .ok (st, some (step + 1), interval)
        | Rating.Easy => graduate

/-- The interval computation of `Scheduler.review_card` (the second half
of each `match card.state` arm), on the already-updated stability. -/
noncomputable def Scheduler.intervalPhase (s : Scheduler) (card : Card)
    (rating : Rating) (newStability : ℝ) :
    Except PyError (State × Option ℤ × ℚ) :=
  match card.state with
  | State.Learning =>
    s.stepsInterval s.learning_steps State.Learning card.step rating newStability
  | State.Review =>
    match rating with
    | Rating.Again =>
      if s.relearning_steps.length = 0 then
        .ok (State.Review, card.step,
             86400 * ((s.next_interval newStability : ℤ) : ℚ))
      else
        match pyIndex s.relearning_steps 0 with
        | .error e => .error e
        | .ok interval => .ok (State.Relearning, some 0, interval)
    | _ =>
      .ok (State.Review, card.step,
           86400 * ((s.next_interval newStability : ℤ) : ℚ))
  | State.Relearning =>
    s.stepsInterval s.relearning_steps State.Relearning card.step rating
      newStability

/-- `Scheduler.review_card` once `review_datetime` has been resolved
(the tz-awareness check has passed and a missing argument was replaced
by the current UTC time). -/
noncomputable def Scheduler.review_card_at (s : Scheduler) (card : Card)
    (rating : Rating) (review_datetime : PyDateTime) (now : PyDateTime)
    (review_duration : Option ℤ) (u : ℚ) :
    Except PyError (Card × ReviewLog) :=
  let daysSinceLastReview : Option ℤ :=
    card.last_review.map (fun lastReview => lastReview.daysUntil review_datetime)
  match s.updatePhase card daysSinceLastReview review_datetime now rating with
  | .error e => .error e
  | .ok (newStability, newDifficulty) =>
    match s.intervalPhase card rating newStability with
    | .error e => .error e
    | .ok (newState, newStep, interval) =>
      let interval :=
        if s.enable_fuzzing ∧ newState = State.Review then
          s.get_fuzzed_interval interval u
        else interval
      .ok
        ({ card with
            state := newState
            step := newStep
            stability := some newStability
            difficulty := some newDifficulty
            due := review_datetime.addSeconds interval
            last_review := some review_datetime },
         { card_id := card.card_id
           rating := rating
           review_datetime := review_datetime
           review_duration := review_duration })

/-- `Scheduler.review_card(card, rating, review_datetime, review_duration)`.
A provided `review_datetime` that is naive or not UTC raises
`ValueError` before anything else happens; a missing one is replaced by
the current UTC time `now`.  The random draw for fuzzing is `u`. -/
noncomputable def Scheduler.review_card (s : Scheduler) (card : Card)
    (rating : Rating) (review_datetime : Option PyDateTime)
    (review_duration : Option ℤ) (now : PyDateTime) (u : ℚ) :
    Except PyError (Card × ReviewLog) :=
  match review_datetime with
  | some t =>
    if t.tz = some TZ.utc then s.review_card_at card rating t now review_duration u
    else .error .valueError
  | none => s.review_card_at card rating now now review_duration u

/-- The JSON-dictionary shape produced by `Card.to_dict`: `state` is the
integer enum value; `due`/`last_review` are ISO-8601 strings, modelled by
the datetimes they denote (ISO round-trip of aware datetimes is exact). -/
structure CardDict where
  card_id : ℤ
  state : ℤ
  step : Option ℤ
  stability : Option ℝ
  difficulty : Option ℝ
  due : PyDateTime
  last_review : Option PyDateTime

/-- `Card.to_dict`. -/
noncomputable def Card.to_dict (c : Card) : CardDict :=
  { card_id := c.card_id
    state := c.state.val
    step := c.step
    stability := c.stability
    difficulty := c.difficulty
    due := c.due
    last_review := c.last_review }

/-- `State(int(...))`: converting an integer back to a `State` member;
an unknown value raises `ValueError`. -/
def stateOfInt (i : ℤ) : Except PyError State :=
  if i = 1 then .ok State.Learning
  else if i = 2 then .ok State.Review
  else if i = 3 then .ok State.Relearning
  else .error .valueError

/-- The truthiness filter of `Card.from_dict`:
`float(x) if x else None` maps both `None` and `0` to `None`. -/
noncomputable def truthyFloat (o : Option ℝ) : Option ℝ :=
  match o with
  | none => none
  | some x => if x = 0 then none else some x

/-- `Card.from_dict`: reads the fields back (with the truthiness quirk on
`stability`/`difficulty`) and passes them through `Card.__init__`. -/
noncomputable def Card.from_dict (d : CardDict) : Except PyError Card :=
  match stateOfInt d.state with
  | .error e => .error e
  | .ok state =>
    .ok (Card.init d.card_id state d.step (truthyFloat d.stability)
      (truthyFloat d.difficulty) d.due d.last_review)

/-! ### Helper lemmas -/

theorem pyRound_intCast {α : Type} [LinearOrderedField α] [FloorRing α]
    (n : ℤ) : pyRound ((n : α)) = n := by
  simp [pyRound, Int.floor_intCast]

theorem floor_le_pyRound {α : Type} [LinearOrderedField α] [FloorRing α]
    (x : α) : Int.floor x ≤ pyRound x := by
  unfold pyRound
  split
  · exact le_refl _
  · split
    · omega
    · split <;> omega

theorem pyRound_le_floor_add_one {α : Type} [LinearOrderedField α]
    [FloorRing α] (x : α) : pyRound x ≤ Int.floor x + 1 := by
  unfold pyRound
  split
  · omega
  · split
    · omega
    · split <;> omega

theorem le_pyRound_of_le {α : Type} [LinearOrderedField α] [FloorRing α]
    (n : ℤ) (x : α) (h : (n : α) ≤ x) : n ≤ pyRound x :=
  le_trans (by exact_mod_cast Int.le_floor.mpr h) (floor_le_pyRound x)

theorem pyRound_le_of_lt {α : Type} [LinearOrderedField α] [FloorRing α]
    (n : ℤ) (x : α) (h : x < (n : α)) : pyRound x ≤ n :=
  le_trans (pyRound_le_floor_add_one x) (by have := Int.floor_lt.mpr h; omega)

theorem clamp_difficulty_bounds (s : Scheduler) (x : ℝ) :
    1 ≤ s.clamp_difficulty x ∧ s.clamp_difficulty x ≤ 10 := by
  unfold Scheduler.clamp_difficulty
  exact ⟨le_min (le_max_right x 1) (by norm_num), min_le_right _ _⟩

theorem clamp_stability_bound (s : Scheduler) (x : ℝ) :
    (1/1000 : ℝ) ≤ s.clamp_stability x :=
  le_max_right x STABILITY_MIN

/-! ### C10 -/

/-- C10: `Card.__init__` normalizes a missing step to 0 only when the
state is Learning; constructing a Relearning-state card with `step=None`
leaves the step `None`, so the `step present iff state ∈ {Learning,
Relearning}` invariant is not established by construction. -/
theorem C10_init_step_normalization (cid : ℤ) (stab diff : Option ℝ)
    (due : PyDateTime) (lr : Option PyDateTime) (st : State) (stp : Option ℤ) :
    (Card.init cid State.Relearning none stab diff due lr).step = none ∧
    (Card.init cid State.Learning none stab diff due lr).step = some 0 ∧
    (st ≠ State.Learning → (Card.init cid st stp stab diff due lr).step = stp) := by
  refine ⟨by simp [Card.init], by simp [Card.init], fun h => by simp [Card.init, h]⟩

theorem C10_witness :
    (Card.init 0 State.Relearning none none none ⟨0, some TZ.utc⟩ none).step = none ∧
    (Card.init 0 State.Learning none none none ⟨0, some TZ.utc⟩ none).step = some 0 ∧
    (Card.init 0 State.Review (some 4) none none ⟨0, some TZ.utc⟩ none).step = some 4 := by
  have h := C10_init_step_normalization 0 none none ⟨0, some TZ.utc⟩ none
    State.Review (some 4)
  exact ⟨h.1, h.2.1, h.2.2 (by simp)⟩

/-! ### C9 -/

/-- C9: a provided `review_datetime` that is naive or not tagged with
`timezone.utc` makes `review_card` fail with `ValueError`; no updated
card and no review log are produced (and, the model being a pure
function on an owned copy, the input card is unchanged). -/
theorem C9_invalid_timezone_value_error (s : Scheduler) (card : Card)
    (rating : Rating) (t : PyDateTime) (review_duration : Option ℤ)
    (now : PyDateTime) (u : ℚ) (h : t.tz ≠ some TZ.utc) :
    s.review_card card rating (some t) review_duration now u =
      .error .valueError := by
  simp [Scheduler.review_card, h]

theorem C9_witness :
    defaultScheduler.review_card
      ⟨0, State.Learning, some 0, none, none, ⟨0, some TZ.utc⟩, none⟩
      Rating.Good (some ⟨0, none⟩) none ⟨0, some TZ.utc⟩ 0 =
      .error .valueError :=
  C9_invalid_timezone_value_error defaultScheduler
    ⟨0, State.Learning, some 0, none, none, ⟨0, some TZ.utc⟩, none⟩
    Rating.Good ⟨0, none⟩ none ⟨0, some TZ.utc⟩ 0 (by simp)

/-! ### C1 -/

/-- C1: reviewing a Relearning-state card whose `last_review` is set and
whose `days_since_last_review` is at least 1 does not complete normally:
the source calls `card.get_retrievability(...)`, a method that does not
exist on `Card`, so `review_card` raises `AttributeError` instead of
updating stability via `next_stability` with the scheduler's
retrievability. -/
theorem C1_relearning_raises_attribute_error :
    defaultScheduler.review_card
      ⟨1, State.Relearning, some 0, some 5, some 5, ⟨0, some TZ.utc⟩,
        some ⟨0, some TZ.utc⟩⟩
      Rating.Good (some ⟨172800, some TZ.utc⟩) none ⟨172800, some TZ.utc⟩ 0 =
      .error .attributeError := by
  have h2 : ((⟨0, some TZ.utc⟩ : PyDateTime).daysUntil ⟨172800, some TZ.utc⟩) = 2 := by
    unfold PyDateTime.daysUntil
    rw [show ((172800 : ℚ) - 0) / 86400 = ((2 : ℤ) : ℚ) by norm_num,
      Int.floor_intCast]
  simp [Scheduler.review_card, Scheduler.review_card_at, Scheduler.updatePhase, h2]

/-! ### C8 -/

theorem truthyFloat_eq_self (o : Option ℝ) (ho : o ≠ some 0) :
    truthyFloat o = o := by
  cases o with
  | none => rfl
  | some x =>
    have hx : x ≠ 0 := fun h => ho (by rw [h])
    simp [truthyFloat, hx]

/-- C8: `Card.from_dict (Card.to_dict x)` reproduces every field of `x`
whenever neither stability nor difficulty equals 0; a stability or
difficulty equal to 0 round-trips as `None` because of the truthiness
check in `from_dict`.  (The hypothesis `hL` records the shape that
`Card.__init__` guarantees for every constructed card: a Learning-state
card always has a step.) -/
theorem C8_card_round_trip (c : Card)
    (hL : c.state = State.Learning → c.step ≠ none) :
    Card.from_dict (Card.to_dict c) =
      .ok { c with stability := truthyFloat c.stability,
                   difficulty := truthyFloat c.difficulty } ∧
    (c.stability ≠ some 0 → c.difficulty ≠ some 0 →
      Card.from_dict (Card.to_dict c) = .ok c) ∧
    (c.stability = some 0 →
      (Card.from_dict (Card.to_dict c)).map Card.stability = .ok none) ∧
    (c.difficulty = some 0 →
      (Card.from_dict (Card.to_dict c)).map Card.difficulty = .ok none) := by
  obtain ⟨cid, st, stp, stab, diff, due, lr⟩ := c
  have hstate : stateOfInt (State.val st) = .ok st := by cases st <;> rfl
  have hstep : ¬(st = State.Learning ∧ stp = none) := fun h => hL h.1 h.2
  have hmain :
      Card.from_dict (Card.to_dict ⟨cid, st, stp, stab, diff, due, lr⟩) =
      .ok ⟨cid, st, stp, truthyFloat stab, truthyFloat diff, due, lr⟩ := by
    simp only [Card.from_dict, Card.to_dict, hstate, Card.init, if_neg hstep]
  refine ⟨hmain, fun hs hd => ?_, fun hs => ?_, fun hd => ?_⟩
  · rw [hmain, truthyFloat_eq_self stab hs, truthyFloat_eq_self diff hd]
  · have hs' : stab = some 0 := hs
    subst hs'
    rw [hmain]
    simp [truthyFloat, Except.map]
  · have hd' : diff = some 0 := hd
    subst hd'
    rw [hmain]
    simp [truthyFloat, Except.map]

theorem C8_witness :
    Card.from_dict (Card.to_dict ⟨7, State.Review, none, some 2, some 3,
        ⟨0, some TZ.utc⟩, none⟩) =
      .ok { (⟨7, State.Review, none, some 2, some 3, ⟨0, some TZ.utc⟩, none⟩ : Card)
            with stability := truthyFloat (some 2),
                 difficulty := truthyFloat (some 3) } ∧
    Card.from_dict (Card.to_dict ⟨7, State.Review, none, some 2, some 3,
        ⟨0, some TZ.utc⟩, none⟩) =
      .ok ⟨7, State.Review, none, some 2, some 3, ⟨0, some TZ.utc⟩, none⟩ := by
  have h := C8_card_round_trip
    ⟨7, State.Review, none, some 2, some 3, ⟨0, some TZ.utc⟩, none⟩ (by simp)
  exact ⟨h.1, h.2.1 (by norm_num) (by norm_num)⟩

/-! ### C4 -/

theorem pyRound_eq_of_lt_half {α : Type} [LinearOrderedField α] [FloorRing α]
    (x : α) (n : ℤ) (h1 : (n : α) ≤ x) (h2 : x < (n : α) + 1)
    (h3 : x - (n : α) < 1/2) : pyRound x = n := by
  have hf : Int.floor x = n := Int.floor_eq_iff.mpr ⟨h1, h2⟩
  unfold pyRound
  rw [hf, if_pos h3]

theorem pyRound_eq_of_half_lt {α : Type} [LinearOrderedField α] [FloorRing α]
    (x : α) (n : ℤ) (h1 : (n : α) ≤ x) (h2 : x < (n : α) + 1)
    (h3 : (1/2 : α) < x - (n : α)) : pyRound x = n + 1 := by
  have hf : Int.floor x = n := Int.floor_eq_iff.mpr ⟨h1, h2⟩
  unfold pyRound
  rw [hf, if_neg (not_lt.mpr (le_of_lt h3)), if_pos h3]

theorem fuzzDelta_three : fuzzDelta 3 = 43/40 := by
  simp only [fuzzDelta]
  norm_num [min_def, max_def]

theorem getFuzzRange_36500_three : getFuzzRange 36500 3 = (2, 4) := by
  have hlow : pyRound (((3 : ℤ) : ℚ) - fuzzDelta 3) = 2 := by
    rw [fuzzDelta_three, show ((3 : ℤ) : ℚ) - 43/40 = 77/40 by norm_num]
    rw [show (2 : ℤ) = 1 + 1 by norm_num]
    exact pyRound_eq_of_half_lt (77/40 : ℚ) 1 (by norm_num) (by norm_num)
      (by norm_num)
  have hhigh : pyRound (((3 : ℤ) : ℚ) + fuzzDelta 3) = 4 := by
    rw [fuzzDelta_three, show ((3 : ℤ) : ℚ) + 43/40 = 163/40 by norm_num]
    exact pyRound_eq_of_lt_half (163/40 : ℚ) 4 (by norm_num) (by norm_num)
      (by norm_num)
  simp only [getFuzzRange, hlow, hhigh]
  norm_num

theorem fuzzedDays_counterexample_value : fuzzedDays 36500 3 (9/10) = 5 := by
  have hx : pyRound ((9/10 : ℚ) * (((4 : ℤ) : ℚ) - ((2 : ℤ) : ℚ) + 1) +
      ((2 : ℤ) : ℚ)) = 5 := by
    rw [show (9/10 : ℚ) * (((4 : ℤ) : ℚ) - ((2 : ℤ) : ℚ) + 1) + ((2 : ℤ) : ℚ) =
      47/10 by norm_num]
    rw [show (5 : ℤ) = 4 + 1 by norm_num]
    exact pyRound_eq_of_half_lt (47/10 : ℚ) 4 (by norm_num) (by norm_num)
      (by norm_num)
  simp only [fuzzedDays, getFuzzRange_36500_three, hx]
  norm_num

/-- C4 counterexample: for an interval of 3 whole days,
`maximum_interval = 36500` and the draw `u = 0.9`, the fuzzed interval is
5 days, which exceeds the claimed upper bound
`min(maximum_interval, round(d + δ)) = 4`: the sampler
`round(u·(max−min+1)+min)` can land one above `max_ivl`. -/
theorem C4_counterexample :
    fuzzedDays 36500 3 (9/10) = 5 ∧
    min (36500 : ℤ) (pyRound (((3 : ℤ) : ℚ) + fuzzDelta 3)) = 4 ∧
    ¬(fuzzedDays 36500 3 (9/10) ≤
        min (36500 : ℤ) (pyRound (((3 : ℤ) : ℚ) + fuzzDelta 3))) := by
  have hhigh : pyRound (((3 : ℤ) : ℚ) + fuzzDelta 3) = 4 := by
    rw [fuzzDelta_three, show ((3 : ℤ) : ℚ) + 43/40 = 163/40 by norm_num]
    exact pyRound_eq_of_lt_half (163/40 : ℚ) 4 (by norm_num) (by norm_num)
      (by norm_num)
  refine ⟨fuzzedDays_counterexample_value, ?_, ?_⟩
  · rw [hhigh]; norm_num
  · rw [fuzzedDays_counterexample_value, hhigh]; norm_num

theorem fuzzedDays_bounds (M d : ℤ) (u : ℚ) (hu0 : 0 ≤ u) (hu1 : u < 1) :
    (getFuzzRange M d).1 ≤ fuzzedDays M d u ∧
    fuzzedDays M d u ≤ min ((getFuzzRange M d).2 + 1) M := by
  have h2 : getFuzzRange M d =
      (min (max 2 (pyRound ((d : ℚ) - fuzzDelta d)))
        (min (pyRound ((d : ℚ) + fuzzDelta d)) M),
       min (pyRound ((d : ℚ) + fuzzDelta d)) M) := rfl
  set A := max 2 (pyRound ((d : ℚ) - fuzzDelta d)) with hA
  set B := min (pyRound ((d : ℚ) + fuzzDelta d)) M with hB
  have hfd : fuzzedDays M d u =
      min (pyRound (u * ((B : ℚ) - ((min A B : ℤ) : ℚ) + 1) + ((min A B : ℤ) : ℚ))) M := by
    rw [fuzzedDays, h2]
  have hloB : min A B ≤ B := min_le_right A B
  have hBM : B ≤ M := min_le_right _ M
  have hloBq : ((min A B : ℤ) : ℚ) ≤ (B : ℚ) := by exact_mod_cast hloB
  have hwpos : (0 : ℚ) < (B : ℚ) - ((min A B : ℤ) : ℚ) + 1 := by linarith
  have hxlo : ((min A B : ℤ) : ℚ) ≤
      u * ((B : ℚ) - ((min A B : ℤ) : ℚ) + 1) + ((min A B : ℤ) : ℚ) := by
    nlinarith
  have hxhi : u * ((B : ℚ) - ((min A B : ℤ) : ℚ) + 1) + ((min A B : ℤ) : ℚ) <
      ((B + 1 : ℤ) : ℚ) := by
    have hmul : u * ((B : ℚ) - ((min A B : ℤ) : ℚ) + 1) <
        (B : ℚ) - ((min A B : ℤ) : ℚ) + 1 :=
      (mul_lt_iff_lt_one_left hwpos).mpr hu1
    have hcast : ((B + 1 : ℤ) : ℚ) = (B : ℚ) + 1 := by push_cast; ring
    rw [hcast]
    linarith
  constructor
  · rw [hfd, h2]
    exact le_min (le_pyRound_of_le _ _ hxlo) (le_trans hloB hBM)
  · rw [hfd, h2]
    exact min_le_min (pyRound_le_of_lt _ _ hxhi) (le_refl M)

/-- C4 amended: with `enable_fuzzing = true`, an interval of `d ≥ 2.5`
whole days and a draw `u ∈ [0, 1)`, the fuzzed interval (in whole days)
lies in `[min_ivl, min(max_ivl + 1, maximum_interval)]`, where
`min_ivl = min(max(2, round(d − δ)), max_ivl)` and
`max_ivl = min(round(d + δ), maximum_interval)` are the code's clamped
bounds: the sampling formula can exceed `max_ivl` by one before the
`maximum_interval` cap. -/
theorem C4_fuzzed_interval_bounds (s : Scheduler) (d : ℤ) (u : ℚ)
    (hd : (5/2 : ℚ) ≤ (d : ℚ)) (hu0 : 0 ≤ u) (hu1 : u < 1) :
    s.get_fuzzed_interval (86400 * (d : ℚ)) u =
      86400 * ((fuzzedDays s.maximum_interval d u : ℤ) : ℚ) ∧
    (getFuzzRange s.maximum_interval d).1 ≤ fuzzedDays s.maximum_interval d u ∧
    fuzzedDays s.maximum_interval d u ≤
      min ((getFuzzRange s.maximum_interval d).2 + 1) s.maximum_interval := by
  have hdd : Int.floor ((86400 * (d : ℚ)) / 86400) = d := by
    rw [show (86400 * (d : ℚ)) / 86400 = ((d : ℤ) : ℚ) by field_simp,
      Int.floor_intCast]
  refine ⟨?_, fuzzedDays_bounds s.maximum_interval d u hu0 hu1⟩
  simp only [Scheduler.get_fuzzed_interval, hdd]
  rw [if_neg (not_lt.mpr hd)]

theorem C4_witness :
    defaultScheduler.get_fuzzed_interval (86400 * ((10 : ℤ) : ℚ)) (1/2) =
      86400 * ((fuzzedDays defaultScheduler.maximum_interval 10 (1/2) : ℤ) : ℚ) ∧
    (getFuzzRange defaultScheduler.maximum_interval 10).1 ≤
      fuzzedDays defaultScheduler.maximum_interval 10 (1/2) ∧
    fuzzedDays defaultScheduler.maximum_interval 10 (1/2) ≤
      min ((getFuzzRange defaultScheduler.maximum_interval 10).2 + 1)
        defaultScheduler.maximum_interval :=
  C4_fuzzed_interval_bounds defaultScheduler 10 (1/2) (by norm_num)
    (by norm_num) (by norm_num)

/-! ### C6 -/

theorem defaultScheduler_DECAY : defaultScheduler.DECAY = -(0.2 : ℝ) := rfl

theorem defaultScheduler_rpow :
    (0.9 : ℝ) ^ ((1 : ℝ) / defaultScheduler.DECAY) = 100000/59049 := by
  rw [defaultScheduler_DECAY,
    show (1 : ℝ) / (-(0.2 : ℝ)) = ((-5 : ℤ) : ℝ) by norm_num,
    Real.rpow_intCast]
  norm_num

theorem defaultScheduler_FACTOR : defaultScheduler.FACTOR = 40951/59049 := by
  rw [Scheduler.FACTOR, defaultScheduler_rpow]
  norm_num

/-- C6: with the default parameters and `desired_retention = 0.9`,
`_next_interval` applied to stability 250 yields exactly 250 days: since
`desired_retention ** (1/DECAY) - 1` equals `FACTOR`, the formula reduces
to the stability itself, and rounding/clamping to `[1, 36500]` leaves
250 unchanged. -/
theorem C6_next_interval_250 : defaultScheduler.next_interval 250 = 250 := by
  have hdr : defaultScheduler.desired_retention = (0.9 : ℝ) := rfl
  have hval : (250 : ℝ) / defaultScheduler.FACTOR *
      (defaultScheduler.desired_retention ^ ((1 : ℝ) / defaultScheduler.DECAY) - 1) =
      ((250 : ℤ) : ℝ) := by
    rw [hdr, defaultScheduler_rpow, defaultScheduler_FACTOR]
    norm_num
  rw [Scheduler.next_interval, hval, pyRound_intCast]
  rfl

/-! ### C7 -/

/-- The closed-form value returned by `get_card_retrievability` when the
card has a last review and a stability. -/
noncomputable def Scheduler.retrievabilityValue (s : Scheduler) (stability : ℝ)
    (elapsedDays : ℤ) : ℝ :=
  (1 + s.FACTOR * (elapsedDays : ℝ) / stability) ^ s.DECAY

theorem FACTOR_pos (s : Scheduler) (hw : 0 < s.parameters 20) :
    0 < s.FACTOR := by
  rw [Scheduler.FACTOR, sub_pos]
  refine (Real.one_lt_rpow_iff_of_pos (by norm_num)).mpr (Or.inr ⟨by norm_num, ?_⟩)
  rw [Scheduler.DECAY]
  exact div_neg_of_pos_of_neg one_pos (neg_neg_iff_pos.mpr hw)

theorem retrievabilityValue_antitone (s : Scheduler) (stability : ℝ)
    (d1 d2 : ℤ) (hw : 0 < s.parameters 20) (hpos : 0 < stability)
    (h0 : 0 ≤ d1) (hle : d1 ≤ d2) :
    s.retrievabilityValue stability d2 ≤ s.retrievabilityValue stability d1 := by
  have hF := FACTOR_pos s hw
  have hD : s.DECAY ≤ 0 := by
    rw [Scheduler.DECAY]
    exact le_of_lt (neg_neg_iff_pos.mpr hw)
  have hbase1 : (0 : ℝ) < 1 + s.FACTOR * (d1 : ℝ) / stability := by
    have : 0 ≤ s.FACTOR * (d1 : ℝ) / stability := by
      apply div_nonneg (mul_nonneg (le_of_lt hF) (by exact_mod_cast h0)) (le_of_lt hpos)
    linarith
  have hmono : 1 + s.FACTOR * (d1 : ℝ) / stability ≤
      1 + s.FACTOR * (d2 : ℝ) / stability := by
    have hc : (d1 : ℝ) ≤ (d2 : ℝ) := by exact_mod_cast hle
    have := (div_le_div_iff_of_pos_right hpos).mpr
      (mul_le_mul_of_nonneg_left hc (le_of_lt hF))
    linarith
  exact Real.rpow_le_rpow_of_nonpos hbase1 hmono hD

/-- C7: for a card with a last review and a stability present (positive,
as the stability invariant guarantees), `get_card_retrievability` returns
`(1 + FACTOR·Δ/S) ^ DECAY` with `Δ = max(0, elapsed whole days)`; that
value is monotonically non-increasing as the elapsed time grows, and
equals exactly 1 when zero whole days have elapsed. -/
theorem C7_retrievability_monotone (s : Scheduler) (card : Card)
    (t1 t2 now lastReview : PyDateTime) (stab : ℝ)
    (hw : 0 < s.parameters 20) (hlr : card.last_review = some lastReview)
    (hs : card.stability = some stab) (hpos : 0 < stab)
    (hle : t1.seconds ≤ t2.seconds) :
    s.get_card_retrievability card (some t1) now =
      .ok (s.retrievabilityValue stab (max 0 (lastReview.daysUntil t1))) ∧
    s.retrievabilityValue stab (max 0 (lastReview.daysUntil t2)) ≤
      s.retrievabilityValue stab (max 0 (lastReview.daysUntil t1)) ∧
    (lastReview.daysUntil t1 ≤ 0 →
      s.retrievabilityValue stab (max 0 (lastReview.daysUntil t1)) = 1) := by
  refine ⟨?_, ?_, ?_⟩
  · simp [Scheduler.get_card_retrievability, hlr, hs, Scheduler.retrievabilityValue]
  · apply retrievabilityValue_antitone s stab _ _ hw hpos (le_max_left 0 _)
    apply max_le_max (le_refl 0)
    unfold PyDateTime.daysUntil
    apply Int.floor_le_floor
    have h86400 : (0 : ℚ) < 86400 := by norm_num
    apply (div_le_div_iff_of_pos_right h86400).mpr
    linarith
  · intro hz
    have hmax : max 0 (lastReview.daysUntil t1) = 0 := max_eq_left hz
    rw [hmax]
    simp [Scheduler.retrievabilityValue, Real.one_rpow]

theorem C7_witness :
    defaultScheduler.get_card_retrievability
      ⟨4, State.Review, none, some 1, some 5, ⟨0, some TZ.utc⟩,
        some ⟨0, some TZ.utc⟩⟩ (some ⟨0, some TZ.utc⟩) ⟨0, some TZ.utc⟩ =
      .ok (defaultScheduler.retrievabilityValue 1
        (max 0 ((⟨0, some TZ.utc⟩ : PyDateTime).daysUntil ⟨0, some TZ.utc⟩))) ∧
    defaultScheduler.retrievabilityValue 1
        (max 0 ((⟨0, some TZ.utc⟩ : PyDateTime).daysUntil ⟨0, some TZ.utc⟩)) ≤
      defaultScheduler.retrievabilityValue 1
        (max 0 ((⟨0, some TZ.utc⟩ : PyDateTime).daysUntil ⟨0, some TZ.utc⟩)) ∧
    ((⟨0, some TZ.utc⟩ : PyDateTime).daysUntil ⟨0, some TZ.utc⟩ ≤ 0 →
      defaultScheduler.retrievabilityValue 1
        (max 0 ((⟨0, some TZ.utc⟩ : PyDateTime).daysUntil ⟨0, some TZ.utc⟩)) = 1) :=
  C7_retrievability_monotone defaultScheduler
    ⟨4, State.Review, none, some 1, some 5, ⟨0, some TZ.utc⟩, some ⟨0, some TZ.utc⟩⟩
    ⟨0, some TZ.utc⟩ ⟨0, some TZ.utc⟩ ⟨0, some TZ.utc⟩ ⟨0, some TZ.utc⟩ 1
    (by norm_num [show defaultScheduler.parameters 20 = (0.2 : ℝ) from rfl])
    rfl rfl (by norm_num) (by norm_num)

/-! ### C2 -/

theorem initial_stability_ge (s : Scheduler) (r : Rating) :
    (1/1000 : ℝ) ≤ s.initial_stability r :=
  clamp_stability_bound s _

theorem initial_difficulty_bounds (s : Scheduler) (r : Rating) :
    1 ≤ s.initial_difficulty r ∧ s.initial_difficulty r ≤ 10 :=
  clamp_difficulty_bounds s _

theorem short_term_stability_ge (s : Scheduler) (st : ℝ) (r : Rating) :
    (1/1000 : ℝ) ≤ s.short_term_stability st r :=
  clamp_stability_bound s _

theorem next_difficulty_bounds (s : Scheduler) (d : ℝ) (r : Rating) :
    1 ≤ s.next_difficulty d r ∧ s.next_difficulty d r ≤ 10 :=
  clamp_difficulty_bounds s _

theorem next_stability_ge (s : Scheduler) (d st R : ℝ) (r : Rating) :
    (1/1000 : ℝ) ≤ s.next_stability d st R r :=
  clamp_stability_bound s _

/-- Every successful stability/difficulty update produces a clamped
pair: stability at least `0.001`, difficulty in `[1, 10]`. -/
theorem updatePhase_bounds (s : Scheduler) (card : Card) (days : Option ℤ)
    (rd now : PyDateTime) (rating : Rating) (p : ℝ × ℝ)
    (h : s.updatePhase card days rd now rating = .ok p) :
    (1/1000 : ℝ) ≤ p.1 ∧ 1 ≤ p.2 ∧ p.2 ≤ 10 := by
  simp only [Scheduler.updatePhase] at h
  repeat' split at h
  all_goals try exact Except.noConfusion h
  all_goals
    injection h with h
    subst h
    refine ⟨?_, ?_, ?_⟩
  all_goals first
    | exact initial_stability_ge _ _
    | exact short_term_stability_ge _ _ _
    | exact next_stability_ge _ _ _ _ _
    | exact (initial_difficulty_bounds _ _).1
    | exact (initial_difficulty_bounds _ _).2
    | exact (next_difficulty_bounds _ _ _).1
    | exact (next_difficulty_bounds _ _ _).2

theorem review_card_at_bounds (s : Scheduler) (card : Card) (rating : Rating)
    (rd now : PyDateTime) (dur : Option ℤ) (u : ℚ) (c : Card) (log : ReviewLog)
    (h : s.review_card_at card rating rd now dur u = .ok (c, log)) :
    c.stability ≠ none ∧ c.difficulty ≠ none ∧
    1 ≤ c.difficulty.getD 0 ∧ c.difficulty.getD 0 ≤ 10 ∧
    (1/1000 : ℝ) ≤ c.stability.getD 0 := by
  simp only [Scheduler.review_card_at] at h
  split at h
  · exact Except.noConfusion h
  · rename_i nS nD hup
    split at h
    · exact Except.noConfusion h
    · rename_i st stp ivl hip
      injection h with h
      injection h with hcard hlog
      subst hcard
      have hb := updatePhase_bounds s card _ rd now rating (nS, nD) hup
      refine ⟨by simp, by simp, ?_, ?_, ?_⟩
      · simpa using hb.2.1
      · simpa using hb.2.2
      · simpa using hb.1

/-- C2: whenever `review_card` returns, the resulting card's difficulty
lies in `[1, 10]` and its stability is at least `0.001` (both fields are
set), because every update path ends in `_clamp_difficulty` /
`_clamp_stability`. -/
theorem C2_review_card_bounds (s : Scheduler) (card : Card) (rating : Rating)
    (review_datetime : Option PyDateTime) (review_duration : Option ℤ)
    (now : PyDateTime) (u : ℚ) (c : Card) (log : ReviewLog)
    (h : s.review_card card rating review_datetime review_duration now u =
      .ok (c, log)) :
    c.stability ≠ none ∧ c.difficulty ≠ none ∧
    1 ≤ c.difficulty.getD 0 ∧ c.difficulty.getD 0 ≤ 10 ∧
    (1/1000 : ℝ) ≤ c.stability.getD 0 := by
  unfold Scheduler.review_card at h
  split at h
  · split at h
    · exact review_card_at_bounds _ _ _ _ _ _ _ _ _ h
    · exact Except.noConfusion h
  · exact review_card_at_bounds _ _ _ _ _ _ _ _ _ h

/-- The card produced by reviewing a brand-new Learning card with
`Again` at `t = 0` under the default scheduler. -/
noncomputable def c2ResultCard : Card :=
  { card_id := 1
    state := State.Learning
    step := some 0
    stability := some (defaultScheduler.initial_stability Rating.Again)
    difficulty := some (defaultScheduler.initial_difficulty Rating.Again)
    due := ⟨60, some TZ.utc⟩
    last_review := some ⟨0, some TZ.utc⟩ }

theorem C2_witness :
    c2ResultCard.stability ≠ none ∧ c2ResultCard.difficulty ≠ none ∧
    1 ≤ c2ResultCard.difficulty.getD 0 ∧ c2ResultCard.difficulty.getD 0 ≤ 10 ∧
    (1/1000 : ℝ) ≤ c2ResultCard.stability.getD 0 :=
  C2_review_card_bounds defaultScheduler
    ⟨1, State.Learning, some 0, none, none, ⟨0, some TZ.utc⟩, none⟩
    Rating.Again (some ⟨0, some TZ.utc⟩) none ⟨0, some TZ.utc⟩ 0
    c2ResultCard ⟨1, Rating.Again, ⟨0, some TZ.utc⟩, none⟩
    (by simp [Scheduler.review_card, Scheduler.review_card_at,
      Scheduler.updatePhase, Scheduler.intervalPhase, Scheduler.stepsInterval,
      pyIndex, c2ResultCard, PyDateTime.addSeconds, defaultScheduler])

/-! ### C3 -/

theorem stepsInterval_state_step (s : Scheduler) (steps : List ℚ) (st : State)
    (stp : Option ℤ) (rating : Rating) (nS : ℝ)
    (res : State × Option ℤ × ℚ) (hst : st ≠ State.Review)
    (h : s.stepsInterval steps st stp rating nS = .ok res) :
    (res.1 = State.Review ↔ res.2.1 = none) := by
  simp only [Scheduler.stepsInterval] at h
  repeat' split at h
  all_goals try exact Except.noConfusion h
  all_goals
    injection h with h
    subst h
    simp [hst]

theorem intervalPhase_state_step (s : Scheduler) (card : Card)
    (rating : Rating) (nS : ℝ) (res : State × Option ℤ × ℚ)
    (hinv : card.state = State.Review → card.step = none)
    (h : s.intervalPhase card rating nS = .ok res) :
    (res.1 = State.Review ↔ res.2.1 = none) := by
  simp only [Scheduler.intervalPhase] at h
  split at h
  · exact stepsInterval_state_step _ _ _ _ _ _ _ (by simp) h
  · rename_i hrev
    have hstep : card.step = none := hinv hrev
    repeat' split at h
    all_goals try exact Except.noConfusion h
    all_goals
      injection h with h
      subst h
      simp [hstep]
  · exact stepsInterval_state_step _ _ _ _ _ _ _ (by simp) h

/-- C3: for every card satisfying the state/step invariant
(`state = Review ↔ step is None`) and every rating, the card returned by
`review_card` satisfies the same invariant. -/
theorem C3_state_step_invariant (s : Scheduler) (card : Card) (rating : Rating)
    (review_datetime : Option PyDateTime) (review_duration : Option ℤ)
    (now : PyDateTime) (u : ℚ) (c : Card) (log : ReviewLog)
    (hinv : card.state = State.Review ↔ card.step = none)
    (h : s.review_card card rating review_datetime review_duration now u =
      .ok (c, log)) :
    (c.state = State.Review ↔ c.step = none) := by
  have hat : ∀ rd : PyDateTime,
      s.review_card_at card rating rd now review_duration u = .ok (c, log) →
      (c.state = State.Review ↔ c.step = none) := by
    intro rd hra
    simp only [Scheduler.review_card_at] at hra
    split at hra
    · exact Except.noConfusion hra
    · rename_i nS nD hup
      split at hra
      · exact Except.noConfusion hra
      · rename_i st stp ivl hip
        injection hra with hra
        injection hra with hcard hlog
        subst hcard
        simpa using intervalPhase_state_step s card rating nS (st, stp, ivl)
          hinv.mp hip
  unfold Scheduler.review_card at h
  split at h
  · split at h
    · exact hat _ h
    · exact Except.noConfusion h
  · exact hat _ h

/-- The card produced by reviewing a brand-new Learning card with
`Again` at `t = 0` under the default scheduler (used to instantiate C3). -/
noncomputable def c3ResultCard : Card :=
  { card_id := 3
    state := State.Learning
    step := some 0
    stability := some (defaultScheduler.initial_stability Rating.Again)
    difficulty := some (defaultScheduler.initial_difficulty Rating.Again)
    due := ⟨60, some TZ.utc⟩
    last_review := some ⟨0, some TZ.utc⟩ }

theorem C3_witness :
    c3ResultCard.state = State.Review ↔ c3ResultCard.step = none :=
  C3_state_step_invariant defaultScheduler
    ⟨3, State.Learning, some 0, none, none, ⟨0, some TZ.utc⟩, none⟩
    Rating.Again (some ⟨0, some TZ.utc⟩) none ⟨0, some TZ.utc⟩ 0
    c3ResultCard ⟨3, Rating.Again, ⟨0, some TZ.utc⟩, none⟩
    (by simp)
    (by simp [Scheduler.review_card, Scheduler.review_card_at,
      Scheduler.updatePhase, Scheduler.intervalPhase, Scheduler.stepsInterval,
      pyIndex, c3ResultCard, PyDateTime.addSeconds, defaultScheduler])

/-! ### C5 -/

theorem exp_p14_lower : (1.15023 : ℝ) ≤ Real.exp 0.14 := by
  have h := Real.sum_le_exp_of_nonneg (by norm_num : (0:ℝ) ≤ 0.14) 4
  have hsum : ∑ i ∈ Finset.range 4, (0.14:ℝ) ^ i / i.factorial = 862693/750000 := by
    simp [Finset.sum_range_succ, Nat.factorial]
    norm_num
  rw [hsum] at h
  linarith

theorem exp_p14_upper : Real.exp 0.14 ≤ (1.15028 : ℝ) := by
  have h := Real.exp_bound' (by norm_num : (0:ℝ) ≤ 0.14) (by norm_num : (0.14:ℝ) ≤ 1)
    (by norm_num : 0 < 4)
  have hsum : ∑ i ∈ Finset.range 4, (0.14:ℝ) ^ i / i.factorial = 862693/750000 := by
    simp [Finset.sum_range_succ, Nat.factorial]
    norm_num
  rw [hsum] at h
  norm_num [Nat.factorial] at h
  rw [show (0.14:ℝ) = 7/50 by norm_num]
  linarith

theorem exp_114_bounds : (3.1266 : ℝ) ≤ Real.exp 1.14 ∧ Real.exp 1.14 ≤ 3.1269 := by
  have hsplit : Real.exp 1.14 = Real.exp 1 * Real.exp 0.14 := by
    rw [← Real.exp_add]
    norm_num
  have hl := Real.exp_one_gt_d9
  have hu := Real.exp_one_lt_d9
  have h14l := exp_p14_lower
  have h14u := exp_p14_upper
  have hepos : (0:ℝ) < Real.exp 1 := Real.exp_pos 1
  constructor
  · rw [hsplit]
    nlinarith
  · rw [hsplit]
    nlinarith

/-- The default scheduler with fuzzing disabled, as in the spec's test
scenarios. -/
noncomputable def c5Scheduler : Scheduler :=
  { defaultScheduler with enable_fuzzing := false }

/-- `t₀ = 2022-11-29T12:30:00Z` as POSIX seconds. -/
def c5T0 : PyDateTime := ⟨1669725000, some TZ.utc⟩

/-- The difficulty actually produced by the first `Good` review of a
brand-new card under the default parameters:
`D₀(Good) = p₄ - e^(p₅·2) + 1 = 8.0114 - e^1.14 ≈ 4.8846`. -/
noncomputable def c5Difficulty : ℝ := 8.0114 - Real.exp 1.14

/-- The card produced by the first `Good` review in the C5 scenario. -/
noncomputable def c5ResultCard : Card :=
  { card_id := 5
    state := State.Learning
    step := some 1
    stability := some 3.2602
    difficulty := some c5Difficulty
    due := ⟨1669725600, some TZ.utc⟩
    last_review := some c5T0 }

/-- The review log produced in the C5 scenario. -/
def c5Log : ReviewLog := ⟨5, Rating.Good, c5T0, none⟩

theorem c5_initial_stability :
    c5Scheduler.initial_stability Rating.Good = 3.2602 := by
  unfold Scheduler.initial_stability Scheduler.clamp_stability STABILITY_MIN
  rw [show c5Scheduler.parameters Rating.Good.paramIndex = (3.2602:ℝ) from rfl]
  exact max_eq_left (by norm_num)

theorem c5_initial_difficulty :
    c5Scheduler.initial_difficulty Rating.Good = c5Difficulty := by
  have hb := exp_114_bounds
  unfold Scheduler.initial_difficulty Scheduler.clamp_difficulty c5Difficulty
  rw [show c5Scheduler.parameters 5 * (Rating.toR Rating.Good - 1) = (1.14:ℝ) by
        rw [show c5Scheduler.parameters 5 = (0.57:ℝ) from rfl]
        simp [Rating.toR, Rating.val]
        norm_num,
      show c5Scheduler.parameters 4 = (7.0114:ℝ) from rfl,
      show (7.0114:ℝ) - Real.exp 1.14 + 1 = 8.0114 - Real.exp 1.14 by ring_nf]
  rw [max_eq_left (by nlinarith [hb.1, hb.2]), min_eq_left (by nlinarith [hb.1, hb.2])]

theorem c5_review_eval :
    c5Scheduler.review_card ⟨5, State.Learning, some 0, none, none, c5T0, none⟩
      Rating.Good (some c5T0) none c5T0 0 = .ok (c5ResultCard, c5Log) := by
  have hs := c5_initial_stability
  have hd := c5_initial_difficulty
  simp only [c5Scheduler, defaultScheduler] at hs hd
  norm_num at hs hd
  simp only [Scheduler.review_card, Scheduler.review_card_at,
    Scheduler.updatePhase, Scheduler.intervalPhase, Scheduler.stepsInterval,
    pyIndex, PyDateTime.addSeconds, c5T0, c5ResultCard, c5Log, c5Scheduler,
    defaultScheduler]
  norm_num [hs, hd]

/-- C5 counterexample: the brand-new card reviewed `Good` at `t₀` under
default parameters (fuzzing disabled) gets difficulty
`p₄ - e^(p₅·(3-1)) + 1 = 8.0114 - e^1.14 ≈ 4.8846`, which differs from
the claimed `≈ 5.28` by more than `0.39`. -/
theorem C5_counterexample :
    c5Scheduler.review_card ⟨5, State.Learning, some 0, none, none, c5T0, none⟩
      Rating.Good (some c5T0) none c5T0 0 = .ok (c5ResultCard, c5Log) ∧
    |c5ResultCard.difficulty.getD 0 - 5.28| > 39/100 := by
  refine ⟨c5_review_eval, ?_⟩
  have hb := exp_114_bounds
  simp only [c5ResultCard, Option.getD_some, c5Difficulty]
  rw [abs_of_neg (by linarith [hb.1])]
  linarith [hb.2]

/-- C5 amended: a brand-new card (state Learning, step 0, no stability
or difficulty) reviewed with `Good` at `t₀ = 2022-11-29T12:30:00Z` under
default parameters, default learning steps and fuzzing disabled yields
state = Learning, step = 1, due = t₀ + 10 min, stability = 3.2602
exactly, and difficulty ≈ 4.8846 (not ≈ 5.28). -/
theorem C5_scenario_amended :
    c5Scheduler.review_card ⟨5, State.Learning, some 0, none, none, c5T0, none⟩
      Rating.Good (some c5T0) none c5T0 0 = .ok (c5ResultCard, c5Log) ∧
    c5ResultCard.state = State.Learning ∧
    c5ResultCard.step = some 1 ∧
    c5ResultCard.due = c5T0.addSeconds 600 ∧
    c5ResultCard.stability = some 3.2602 ∧
    |c5ResultCard.difficulty.getD 0 - 4.8846| < 1/1000 := by
  have hb := exp_114_bounds
  refine ⟨c5_review_eval, rfl, rfl, ?_, rfl, ?_⟩
  · simp only [c5ResultCard, c5T0, PyDateTime.addSeconds]
    norm_num
  · simp only [c5ResultCard, Option.getD_some, c5Difficulty]
    rw [abs_lt]
    constructor <;> linarith [hb.1, hb.2]
